import Mathlib

/-!
# Verification of the AIFileManager document-management server

Shallow embedding of the server-side code of the AIFileManager repository:
the file-processing pipeline (`server/services/fileProcessor.ts`), the
OpenAI and OCR service wrappers (`server/services/openai.ts`,
`server/services/ocr.ts`), and the Express route handlers for folders,
file upload and AI commands (`server/routes.ts`) over the storage layer
(`server/storage.ts`).

External effects (the OCR engine, the OpenAI chat-completion calls, the
database writes) are passed in as explicit outcome parameters
(`Except`/`Bool` oracles); the embedded functions record which
collaborator calls they make and which persistence writes succeed.
-/

namespace AIFileManager

/-! ## Data model (shared/schema.ts)

Timestamps (`createdAt`, `updatedAt`) and the free-form `metadata` column
are not modelled: no verified property mentions them. -/

/-- A row of the `files` table. -/
structure FileRec where
  id : Nat
  userId : String
  folderId : Option Int
  name : String
  originalName : String
  size : Nat
  mimeType : String
  filePath : String
  processingStatus : String
  deriving Repr, DecidableEq

/-- A `Partial<File>` update object as passed to `storage.updateFile`:
absent fields are `none`. -/
structure FileUpdate where
  ocrText : Option String := none
  aiSummary : Option String := none
  tags : Option (List String) := none
  processingStatus : Option String := none
  deriving Repr, DecidableEq

/-- A row of the `folders` table. -/
structure FolderRec where
  id : Int
  userId : String
  name : String
  parentId : Option Int
  path : String
  deriving Repr, DecidableEq

/-! ## fileProcessor.ts -/

/-- The `supportedTypes` array of `FileProcessor.isOCRSupported`. -/
def supportedTypes : List String :=
  ["image/jpeg", "image/png", "image/gif", "image/bmp", "image/tiff",
   "application/pdf"]

/-- `FileProcessor.isOCRSupported(mimeType)`: membership in the fixed
allow-list. -/
def isOCRSupported (mimeType : String) : Bool :=
  supportedTypes.contains mimeType

/-- The `ProcessingOptions` interface of fileProcessor.ts. -/
structure ProcessingOptions where
  processOcr : Bool
  generateSummary : Bool
  autoTag : Bool
  deriving Repr, DecidableEq

/-- Observable outcome of one `processFile` run: which collaborators were
invoked (and with which text arguments), the list of `storage.updateFile`
writes that succeeded, in order, and whether the promise resolved
normally (`true`) or rejected (`false`, only when the catch-block write
itself fails). -/
structure PipelineResult where
  ocrInvoked : Bool
  summarizeInput : Option (String × String)
  tagsInput : Option (String × String)
  writes : List FileUpdate
  returnedNormally : Bool
  deriving Repr, DecidableEq

/-- `FileProcessor.processFile(file, options)`.

* `extractTextResult` — outcome of `ocrService.extractText(file.filePath)`
  (only consulted when the call is made);
* `summarize t n` — outcome of `openaiService.summarizeDocument(t, n)`;
* `generateTagsF t n` — outcome of `openaiService.generateTags(t, n)`;
* `completedWriteOk` — whether the final `storage.updateFile(..,
  processingStatus: "completed")` write succeeds (if not, its exception
  reaches the outer catch);
* `failedWriteOk` — whether the catch-block
  `storage.updateFile(.., processingStatus: "failed")` write succeeds.

Each of the three collaborator calls sits in its own try/catch whose
handler only logs, so a failing step leaves its variable at the
initialiser (`""`, `""`, `[]`) and the pipeline continues; only the final
write can throw past the steps. -/
def processFile (file : FileRec) (options : ProcessingOptions)
    (extractTextResult : Except Unit String)
    (summarize : String → String → Except Unit String)
    (generateTagsF : String → String → Except Unit (List String))
    (completedWriteOk failedWriteOk : Bool) : PipelineResult :=
  -- if (options.processOcr && this.isOCRSupported(file.mimeType))
  let ocrAttempt := options.processOcr && isOCRSupported file.mimeType
  let ocrText :=
    if ocrAttempt then
      match extractTextResult with
      | .ok t => t
      | .error _ => ""          -- OCR failed: logged, ocrText stays ""
    else ""
  -- const textForAI = ocrText || file.originalName;
  let textForAI := if ocrText = "" then file.originalName else ocrText
  -- if (options.generateSummary && textForAI)
  let summaryCall :=
    if options.generateSummary ∧ textForAI ≠ "" then
      some (textForAI, file.originalName)
    else none
  let summary :=
    match summaryCall with
    | some (t, n) =>
      match summarize t n with
      | .ok s => s
      | .error _ => ""          -- summary failed: logged, summary stays ""
    | none => ""
  -- if (options.autoTag && textForAI)
  let tagsCall :=
    if options.autoTag ∧ textForAI ≠ "" then
      some (textForAI, file.originalName)
    else none
  let tags :=
    match tagsCall with
    | some (t, n) =>
      match generateTagsF t n with
      | .ok ts => ts
      | .error _ => []          -- tagging failed: logged, tags stays []
    | none => []
  let completedUpdate : FileUpdate :=
    { ocrText := some ocrText, aiSummary := some summary,
      tags := some tags, processingStatus := some "completed" }
  let failedUpdate : FileUpdate := { processingStatus := some "failed" }
  if completedWriteOk then
    { ocrInvoked := ocrAttempt, summarizeInput := summaryCall,
      tagsInput := tagsCall, writes := [completedUpdate],
      returnedNormally := true }
  else if failedWriteOk then
    { ocrInvoked := ocrAttempt, summarizeInput := summaryCall,
      tagsInput := tagsCall, writes := [failedUpdate],
      returnedNormally := true }
  else
    { ocrInvoked := ocrAttempt, summarizeInput := summaryCall,
      tagsInput := tagsCall, writes := [],
      returnedNormally := false }

/-! ## openai.ts and ocr.ts service wrappers -/

/-- `OpenAIService.summarizeDocument(text, fileName)`.

`apiResult` is the outcome of the `openai.chat.completions.create` call
together with the `response.choices[0].message.content` access: `.ok c`
carries the (possibly null) content string, `.error` is any exception in
the try block. On success the source returns
`content || "Unable to generate summary"`; the catch block returns the
string `"Summary generation failed"` — it never rethrows. -/
def summarizeDocument (apiResult : Except Unit (Option String)) : String :=
  match apiResult with
  | .ok content =>
    match content with
    | some c => if c = "" then "Unable to generate summary" else c
    | none => "Unable to generate summary"
  | .error _ => "Summary generation failed"

/-- `OpenAIService.generateTags(text, fileName)`.

`apiResult` covers the chat call plus `JSON.parse`: `.ok parsed` carries
the parsed `result.tags` field (`none` when absent), `.error` any
exception. Source returns `result.tags || []` on success and `[]` from
the catch block — it never rethrows. -/
def generateTags (apiResult : Except Unit (Option (List String))) :
    List String :=
  match apiResult with
  | .ok parsedTags => parsedTags.getD []
  | .error _ => []

/-- `OCRService.extractText(filePath)`: on success returns the trimmed
recognized text; on any failure the catch block rethrows
(`throw new Error("Failed to extract text from document")`), so the
caller sees an exception. `recognized` is the outcome of
`worker.recognize(filePath)`. -/
def extractText (recognized : Except Unit String) : Except Unit String :=
  match recognized with
  | .ok text => .ok text.trim
  | .error _ => .error ()

/-- `processFile` composed with the real collaborator implementations
from openai.ts / ocr.ts, leaving only the underlying engine/API
outcomes (`ocrApi`, `summaryApi`, `tagsApi`) and the two persistence
outcomes as oracles. Note `summarizeDocument` and `generateTags` never
throw: their results enter the pipeline as `.ok`. -/
def processFileFull (file : FileRec) (options : ProcessingOptions)
    (ocrApi : Except Unit String)
    (summaryApi : Except Unit (Option String))
    (tagsApi : Except Unit (Option (List String)))
    (completedWriteOk failedWriteOk : Bool) : PipelineResult :=
  processFile file options (extractText ocrApi)
    (fun _ _ => .ok (summarizeDocument summaryApi))
    (fun _ _ => .ok (generateTags tagsApi))
    completedWriteOk failedWriteOk

/-! ## storage.ts query helpers

The database is modelled as in-memory lists of rows; `serial` primary
keys are modelled by a `nextFolderId` counter. -/

/-- In-memory image of the `folders` and `files` tables. -/
structure Store where
  folders : List FolderRec
  files : List FileRec
  nextFolderId : Int
  deriving Repr, DecidableEq

/-- `DatabaseStorage.getFolderById(id)`: `select .. where eq(folders.id, id)`,
first row if any. -/
def getFolderById (s : Store) (id : Int) : Option FolderRec :=
  (s.folders.filter (fun f => f.id == id)).head?

/-- `DatabaseStorage.getFilesByFolderId(folderId)`: all file rows whose
`folderId` column equals the argument (row order is irrelevant to the
properties proved here, so the `orderBy(desc(createdAt))` is dropped
along with the unmodelled timestamps). -/
def getFilesByFolderId (s : Store) (folderId : Int) : List FileRec :=
  s.files.filter (fun f => f.folderId == some folderId)

/-- Code-point-wise lexicographic comparison of character lists,
modelling the database's `asc` text ordering. -/
def charListLe : List Char → List Char → Bool
  | [], _ => true
  | _ :: _, [] => false
  | a :: as, b :: bs =>
    if a.toNat < b.toNat then true
    else if b.toNat < a.toNat then false
    else charListLe as bs

/-- Lexicographic `≤` on folder names. -/
def nameLe (a b : FolderRec) : Bool := charListLe a.name.data b.name.data

/-- Stable insertion into a name-sorted folder list. -/
def insertByName (x : FolderRec) : List FolderRec → List FolderRec
  | [] => [x]
  | y :: ys => if nameLe x y then x :: y :: ys else y :: insertByName x ys

/-- Stable sort of folder rows by name, modelling
`orderBy(asc(folders.name))`. -/
def sortByName : List FolderRec → List FolderRec
  | [] => []
  | x :: xs => insertByName x (sortByName xs)

/-- `DatabaseStorage.getFoldersByUserId(userId)`: the user's folder rows,
ordered by `asc(folders.name)`. -/
def getFoldersByUserId (s : Store) (userId : String) : List FolderRec :=
  sortByName (s.folders.filter (fun f => f.userId == userId))

/-! ## routes.ts folder handlers -/

/-- JavaScript truthiness of the `parentId` body field (a number or
absent): `undefined` and `0` are falsy. -/
def idTruthy : Option Int → Bool
  | none => false
  | some v => v != 0

/-- The path computation shared by the folder create and update
handlers:

```
let path = name;
if (parentId) {
  const parentFolder = await storage.getFolderById(parentId);
  if (parentFolder) { path = `${parentFolder.path}/${name}`; }
}
```
-/
def buildFolderPath (s : Store) (name : String) (parentId : Option Int) :
    String :=
  if idTruthy parentId then
    match getFolderById s (parentId.getD 0) with
    | some parentFolder => parentFolder.path ++ "/" ++ name
    | none => name
  else name

/-- `POST /api/folders` handler: computes the path, then
`storage.createFolder({ userId, name, parentId: parentId || null, path })`
(an insert with the next serial id). Returns the new store and the
created row (the JSON response body). -/
def createFolderRoute (s : Store) (userId name : String)
    (parentId : Option Int) : Store × FolderRec :=
  let path := buildFolderPath s name parentId
  let folder : FolderRec :=
    { id := s.nextFolderId, userId := userId, name := name,
      parentId := if idTruthy parentId then parentId else none,
      path := path }
  ({ s with folders := s.folders ++ [folder],
            nextFolderId := s.nextFolderId + 1 }, folder)

/-- `PUT /api/folders/:id` handler: recomputes the path by the same rule
from the request body's `name`/`parentId`, then
`storage.updateFolder(folderId, { name, parentId: parentId || null, path })`
(`update .. set .. where eq(folders.id, id)`). Returns the new store and
the updated row as returned to the client. -/
def updateFolderRoute (s : Store) (folderId : Int) (name : String)
    (parentId : Option Int) : Store × Option FolderRec :=
  let path := buildFolderPath s name parentId
  let upd := fun (f : FolderRec) =>
    if f.id == folderId then
      { f with name := name,
               parentId := if idTruthy parentId then parentId else none,
               path := path }
    else f
  let folders := s.folders.map upd
  ({ s with folders := folders },
   (folders.filter (fun f => f.id == folderId)).head?)

/-- `DELETE /api/folders/:id` handler: blocked (HTTP 400, no state
change) when the folder still has files, or subfolders **among the
requesting user's folders**; otherwise deletes the row and answers 200.
Returns the new store and the HTTP status. -/
def deleteFolderRoute (s : Store) (requesterId : String) (folderId : Int) :
    Store × Nat :=
  let files := getFilesByFolderId s folderId
  let subfolders := (getFoldersByUserId s requesterId).filter
    (fun f => f.parentId == some folderId)
  if files.length > 0 ∨ subfolders.length > 0 then
    (s, 400)
  else
    ({ s with folders := s.folders.filter (fun f => !(f.id == folderId)) },
     200)

/-! ## routes.ts upload handler -/

/-- A JavaScript value as relevant to the upload handler's option
fields: the destructuring default `= true` produces a boolean, a
supplied multipart field is a string. -/
inductive JSVal where
  | jsBool : Bool → JSVal
  | jsStr : String → JSVal
  deriving Repr, DecidableEq

/-- JavaScript strict equality `===` restricted to the two value shapes
above: values of different types are never strictly equal. -/
def jsStrictEq : JSVal → JSVal → Bool
  | .jsBool a, .jsBool b => a == b
  | .jsStr a, .jsStr b => a == b
  | _, _ => false

/-- `const { field = true } = req.body` for a multipart text field:
the string when supplied, the boolean default `true` when omitted. -/
def bodyField (v : Option String) : JSVal :=
  match v with
  | some s => .jsStr s
  | none => .jsBool true

/-- One element of `req.files` as produced by multer. -/
structure UploadPart where
  filename : String
  originalname : String
  size : Nat
  mimetype : String
  path : String
  deriving Repr, DecidableEq

/-- `POST /api/files/upload` handler. Returns the HTTP status, the
created file rows (the response's `files` array), and the
`(file, options)` pairs handed to `fileProcessor.processFile` — one
fire-and-forget invocation per file. The options are computed once from
the body: `processOcr === 'true'` etc., where an omitted field
destructures to the boolean `true`. `folderId` is parsed with
`parseInt` when truthy (modelled for decimal numerals; no verified
property depends on it). -/
def uploadRoute (userId : String) (nextFileId : Nat)
    (files : List UploadPart)
    (folderId processOcr generateSummary autoTag : Option String) :
    Nat × List FileRec × List (FileRec × ProcessingOptions) :=
  if files.isEmpty then (400, [], [])
  else
    let opts : ProcessingOptions :=
      { processOcr := jsStrictEq (bodyField processOcr) (.jsStr "true"),
        generateSummary :=
          jsStrictEq (bodyField generateSummary) (.jsStr "true"),
        autoTag := jsStrictEq (bodyField autoTag) (.jsStr "true") }
    let folderIdVal : Option Int :=
      match folderId with
      | some fs => if fs = "" then none else fs.toInt?
      | none => none
    let created := files.enum.map (fun (i, p) =>
      { id := nextFileId + i, userId := userId, folderId := folderIdVal,
        name := p.filename, originalName := p.originalname,
        size := p.size, mimeType := p.mimetype, filePath := p.path,
        processingStatus := "processing" : FileRec })
    (200, created, created.map (fun f => (f, opts)))

/-! ## routes.ts AI command handler and openai.ts processCommand -/

/-- A row of the `ai_commands` table (timestamps and the not-yet-set
`result` column omitted at creation). -/
structure AiCommandRec where
  id : Nat
  userId : String
  command : String
  status : String
  deriving Repr, DecidableEq

/-- `POST /api/ai/command` handler: creates the record with status
`"processing"` and responds with it; the `processCommand` call is fired
without being awaited. -/
def aiCommandRoute (userId command : String) (newId : Nat) : AiCommandRec :=
  { id := newId, userId := userId, command := command,
    status := "processing" }

/-- The `result` column written by `processCommand`: the parsed JSON on
success, or the error payload `{ error: "..." }` on failure. `α` is the
shape of the parsed language-model response. -/
inductive CmdResult (α : Type) where
  | parsed : α → CmdResult α
  | errorPayload : String → CmdResult α
  deriving Repr, DecidableEq

/-- One `storage.updateAiCommand` update object. -/
structure AiCommandUpdate (α : Type) where
  status : String
  result : CmdResult α
  deriving Repr, DecidableEq

/-- `OpenAIService.processCommand(commandId, command, userId)`.

`apiResult` covers the chat-completion call plus `JSON.parse` of its
content: `.ok r` is the parsed result, `.error` any exception in the try
block. On success the record is updated to `completed` with the result;
any exception (including a failed `completed` write, via the catch
block) leads to one `failed` update carrying the error payload.
`completedWriteOk`/`failedWriteOk` are the outcomes of the two possible
`updateAiCommand` writes; the returned list holds the writes that
succeeded, in order, and the boolean tells whether the promise resolved
normally. -/
def processCommand {α : Type} (apiResult : Except Unit α)
    (completedWriteOk failedWriteOk : Bool) :
    List (AiCommandUpdate α) × Bool :=
  match apiResult with
  | .ok r =>
    if completedWriteOk then
      ([{ status := "completed", result := .parsed r }], true)
    else if failedWriteOk then
      ([{ status := "failed",
          result := .errorPayload "Failed to process command" }], true)
    else ([], false)
  | .error _ =>
    if failedWriteOk then
      ([{ status := "failed",
          result := .errorPayload "Failed to process command" }], true)
    else ([], false)

/-! ## Sample records (used by witnesses and counterexamples) -/

/-- A PDF upload as in the spec's example scenario. -/
def samplePdf : FileRec :=
  { id := 1, userId := "user-1", folderId := none, name := "f1",
    originalName := "lease.pdf", size := 2048,
    mimeType := "application/pdf", filePath := "/uploads/f1",
    processingStatus := "processing" }

/-- A plain-text upload, outside the OCR allow-list. -/
def sampleTxt : FileRec :=
  { id := 2, userId := "user-1", folderId := none, name := "f2",
    originalName := "notes.txt", size := 5, mimeType := "text/plain",
    filePath := "/uploads/f2", processingStatus := "processing" }

/-! ## Derived observations on pipeline runs -/

/-- The `processingStatus` field of the last successful persistence
write of a pipeline run, if any. -/
def lastPersistedStatus (r : PipelineResult) : Option String :=
  r.writes.getLast?.bind (fun u => u.processingStatus)

/-- The single `storage.updateFile` payload the pipeline writes when its
try block runs to completion, as a function of the file record, the
options and the collaborator outcomes alone (mirrors the body of
`processFile` up to the final write). -/
def pipelineOutput (file : FileRec) (options : ProcessingOptions)
    (extractTextResult : Except Unit String)
    (summarize : String → String → Except Unit String)
    (generateTagsF : String → String → Except Unit (List String)) :
    FileUpdate :=
  let ocrAttempt := options.processOcr && isOCRSupported file.mimeType
  let ocrText :=
    if ocrAttempt then
      match extractTextResult with
      | .ok t => t
      | .error _ => ""
    else ""
  let textForAI := if ocrText = "" then file.originalName else ocrText
  let summaryCall :=
    if options.generateSummary ∧ textForAI ≠ "" then
      some (textForAI, file.originalName)
    else none
  let summary :=
    match summaryCall with
    | some (t, n) =>
      match summarize t n with
      | .ok s => s
      | .error _ => ""
    | none => ""
  let tagsCall :=
    if options.autoTag ∧ textForAI ≠ "" then
      some (textForAI, file.originalName)
    else none
  let tags :=
    match tagsCall with
    | some (t, n) =>
      match generateTagsF t n with
      | .ok ts => ts
      | .error _ => []
    | none => []
  { ocrText := some ocrText, aiSummary := some summary,
    tags := some tags, processingStatus := some "completed" }

/-! ## Claim theorems -/

/-- **C1**: whenever `processFile` resolves normally, it has persisted at
least one write, and the last persisted `processingStatus` is
`"completed"` (exactly when the try block — in particular the final
write — succeeded) or `"failed"` (exactly when an exception escaped to
the catch block), and never `"pending"` or `"processing"`. -/
theorem C1_pipeline_terminal_status (file : FileRec)
    (options : ProcessingOptions) (ext : Except Unit String)
    (sum : String → String → Except Unit String)
    (tg : String → String → Except Unit (List String)) (w1 w2 : Bool)
    (h : (processFile file options ext sum tg w1 w2).returnedNormally = true) :
    (processFile file options ext sum tg w1 w2).writes ≠ [] ∧
    (lastPersistedStatus (processFile file options ext sum tg w1 w2) =
        some "completed" ∨
      lastPersistedStatus (processFile file options ext sum tg w1 w2) =
        some "failed") ∧
    lastPersistedStatus (processFile file options ext sum tg w1 w2) ≠
      some "pending" ∧
    lastPersistedStatus (processFile file options ext sum tg w1 w2) ≠
      some "processing" ∧
    (w1 = true →
      lastPersistedStatus (processFile file options ext sum tg w1 w2) =
        some "completed") ∧
    (w1 = false →
      lastPersistedStatus (processFile file options ext sum tg w1 w2) =
        some "failed") := by
  cases w1 <;> cases w2 <;>
    simp [processFile, lastPersistedStatus] at h ⊢

/-- Witness for C1 at a concrete run: all collaborators fail, both
writes succeed. -/
theorem C1_pipeline_terminal_status_witness :
    (processFile samplePdf ⟨true, true, true⟩ (.error ())
        (fun _ _ => .error ()) (fun _ _ => .error ()) true true).writes ≠ [] ∧
    (lastPersistedStatus (processFile samplePdf ⟨true, true, true⟩
          (.error ()) (fun _ _ => .error ()) (fun _ _ => .error ()) true
          true) = some "completed" ∨
      lastPersistedStatus (processFile samplePdf ⟨true, true, true⟩
          (.error ()) (fun _ _ => .error ()) (fun _ _ => .error ()) true
          true) = some "failed") ∧
    lastPersistedStatus (processFile samplePdf ⟨true, true, true⟩
        (.error ()) (fun _ _ => .error ()) (fun _ _ => .error ()) true
        true) ≠ some "pending" ∧
    lastPersistedStatus (processFile samplePdf ⟨true, true, true⟩
        (.error ()) (fun _ _ => .error ()) (fun _ _ => .error ()) true
        true) ≠ some "processing" ∧
    (true = true →
      lastPersistedStatus (processFile samplePdf ⟨true, true, true⟩
          (.error ()) (fun _ _ => .error ()) (fun _ _ => .error ()) true
          true) = some "completed") ∧
    (true = false →
      lastPersistedStatus (processFile samplePdf ⟨true, true, true⟩
          (.error ()) (fun _ _ => .error ()) (fun _ _ => .error ()) true
          true) = some "failed") :=
  C1_pipeline_terminal_status samplePdf ⟨true, true, true⟩ (.error ())
    (fun _ _ => .error ()) (fun _ _ => .error ()) true true (by decide)

/-- **C9**: when the try block completes (the `completed` write
succeeds), the persisted payload is exactly `pipelineOutput` — a pure
function of the file record, the options and the collaborator
responses — so two runs with identical collaborator responses persist
identical `ocrText`/`aiSummary`/`tags`, independently even of the
catch-path write oracle. -/
theorem C9_pipeline_deterministic (file : FileRec)
    (options : ProcessingOptions) (ext : Except Unit String)
    (sum : String → String → Except Unit String)
    (tg : String → String → Except Unit (List String)) (w2 w2' : Bool) :
    (processFile file options ext sum tg true w2).writes =
      [pipelineOutput file options ext sum tg] ∧
    (processFile file options ext sum tg true w2).writes =
      (processFile file options ext sum tg true w2').writes :=
  ⟨rfl, rfl⟩

/-- **C2 (counterexample)**: with all three options enabled and all
three underlying service calls failing on a PDF upload, the persisted
record is `completed` with empty `ocrText` and empty `tags`, but
`aiSummary` is the non-empty sentinel `"Summary generation failed"`
(`summarizeDocument`'s catch block returns it instead of rethrowing), so
the claim's "aiSummary empty" is false on this run. -/
theorem C2_all_fail_counterexample :
    (processFileFull samplePdf ⟨true, true, true⟩ (.error ()) (.error ())
        (.error ()) true true).writes =
      [{ ocrText := some "", aiSummary := some "Summary generation failed",
         tags := some [], processingStatus := some "completed" }] ∧
    ¬ (processFileFull samplePdf ⟨true, true, true⟩ (.error ()) (.error ())
        (.error ()) true true).writes =
      [{ ocrText := some "", aiSummary := some "",
         tags := some [], processingStatus := some "completed" }] ∧
    (some "Summary generation failed" : Option String) ≠ some "" := by
  refine ⟨by decide, by decide, by decide⟩

/-- **C2 (amended)**: for every file with a non-empty original name,
processed with all three options enabled, where the underlying OCR
engine call, chat-completion summarization call and chat-completion
tagging call all fail (and the final persistence write succeeds), the
pipeline persists exactly one update: `processingStatus "completed"`,
`ocrText` empty, `tags` empty, and `aiSummary` equal to the non-empty
fallback string `"Summary generation failed"` that
`summarizeDocument`'s internal error handler returns. -/
theorem C2_all_fail_completed_with_sentinel (file : FileRec) (w2 : Bool)
    (h : file.originalName ≠ "") :
    (processFileFull file ⟨true, true, true⟩ (.error ()) (.error ())
        (.error ()) true w2).writes =
      [{ ocrText := some "", aiSummary := some "Summary generation failed",
         tags := some [], processingStatus := some "completed" }] := by
  cases hm : isOCRSupported file.mimeType <;>
    simp [processFileFull, processFile, extractText, summarizeDocument,
      generateTags, hm, h]

/-- Witness for the amended C2 at the sample PDF. -/
theorem C2_all_fail_completed_with_sentinel_witness :
    samplePdf.originalName ≠ "" ∧
    (processFileFull samplePdf ⟨true, true, true⟩ (.error ()) (.error ())
        (.error ()) true true).writes =
      [{ ocrText := some "", aiSummary := some "Summary generation failed",
         tags := some [], processingStatus := some "completed" }] :=
  ⟨by decide,
   C2_all_fail_completed_with_sentinel samplePdf true (by decide)⟩

/-- **C3**: for a file whose declared media type is outside the fixed
supported set, `processFile` never invokes the text-extraction
collaborator (its result is even ignored: runs with different extraction
outcomes coincide), and whenever the summarization or tagging
collaborator is invoked, its text argument (and its file-name argument)
is exactly the file's original name. -/
theorem C3_unsupported_type_skips_extraction (file : FileRec)
    (options : ProcessingOptions) (ext : Except Unit String)
    (sum : String → String → Except Unit String)
    (tg : String → String → Except Unit (List String)) (w1 w2 : Bool)
    (h : file.mimeType ∉ supportedTypes) :
    (processFile file options ext sum tg w1 w2).ocrInvoked = false ∧
    (∀ t n, (processFile file options ext sum tg w1 w2).summarizeInput =
        some (t, n) → t = file.originalName ∧ n = file.originalName) ∧
    (∀ t n, (processFile file options ext sum tg w1 w2).tagsInput =
        some (t, n) → t = file.originalName ∧ n = file.originalName) ∧
    (∀ ext', processFile file options ext' sum tg w1 w2 =
        processFile file options ext sum tg w1 w2) := by
  have hc : isOCRSupported file.mimeType = false := by
    simpa [isOCRSupported] using h
  have hs : (processFile file options ext sum tg w1 w2).summarizeInput =
      (if options.generateSummary ∧ file.originalName ≠ "" then
        some (file.originalName, file.originalName) else none) := by
    cases w1 <;> cases w2 <;> simp [processFile, hc]
  have htg : (processFile file options ext sum tg w1 w2).tagsInput =
      (if options.autoTag ∧ file.originalName ≠ "" then
        some (file.originalName, file.originalName) else none) := by
    cases w1 <;> cases w2 <;> simp [processFile, hc]
  refine ⟨?_, ?_, ?_, ?_⟩
  · cases w1 <;> cases w2 <;> simp [processFile, hc]
  · intro t n ht
    rw [hs] at ht
    split at ht
    · rw [Option.some_inj, Prod.mk.injEq] at ht
      exact ⟨ht.1.symm, ht.2.symm⟩
    · exact absurd ht (by simp)
  · intro t n ht
    rw [htg] at ht
    split at ht
    · rw [Option.some_inj, Prod.mk.injEq] at ht
      exact ⟨ht.1.symm, ht.2.symm⟩
    · exact absurd ht (by simp)
  · intro ext'
    cases w1 <;> cases w2 <;> simp [processFile, hc]

/-- Witness for C3 at the sample text file (`text/plain` is not in the
allow-list): extraction is skipped and the summarize call's arguments
per the theorem are the original name `"notes.txt"`. -/
theorem C3_unsupported_type_skips_extraction_witness :
    sampleTxt.mimeType ∉ supportedTypes ∧
    (processFile sampleTxt ⟨true, true, true⟩ (Except.ok "ignored")
        (fun t _ => Except.ok t) (fun t n => Except.ok [t, n]) true
        true).ocrInvoked = false ∧
    ("notes.txt" = sampleTxt.originalName ∧
     "notes.txt" = sampleTxt.originalName) :=
  ⟨by decide,
   (C3_unsupported_type_skips_extraction sampleTxt ⟨true, true, true⟩
      (Except.ok "ignored") (fun t _ => Except.ok t)
      (fun t n => Except.ok [t, n]) true true (by decide)).1,
   (C3_unsupported_type_skips_extraction sampleTxt ⟨true, true, true⟩
      (Except.ok "ignored") (fun t _ => Except.ok t)
      (fun t n => Except.ok [t, n]) true true (by decide)).2.1
     "notes.txt" "notes.txt" (by decide)⟩

/-- **C5**: on folder creation the stored materialized path is the
parent's current path joined with `"/"` and the new name when a parent
id is supplied (and nonzero) and its folder is found, and is just the
new name when no parent is supplied; in both cases the returned row is
exactly the one appended to the store. -/
theorem C5_create_folder_path (s : Store) (uid name : String)
    (parentId : Option Int) :
    ((createFolderRoute s uid name none).2.path = name) ∧
    (∀ pid pf, parentId = some pid → pid ≠ 0 →
      getFolderById s pid = some pf →
      (createFolderRoute s uid name parentId).2.path =
        pf.path ++ "/" ++ name) ∧
    ((createFolderRoute s uid name parentId).1.folders =
      s.folders ++ [(createFolderRoute s uid name parentId).2]) := by
  refine ⟨by simp [createFolderRoute, buildFolderPath, idTruthy], ?_, rfl⟩
  rintro pid pf rfl hne hf
  simp [createFolderRoute, buildFolderPath, idTruthy, hne, hf]

/-- Store with one root folder `A`, used by the C5 witness. -/
def c5Store : Store :=
  { folders := [{ id := 1, userId := "u", name := "A", parentId := none,
                  path := "A" }],
    files := [], nextFolderId := 2 }

/-- Witness for C5: creating `B` under the existing folder `A` stores
path `"A/B"`; creating `C` at root stores path `"C"`. -/
theorem C5_create_folder_path_witness :
    (createFolderRoute c5Store "u" "C" none).2.path = "C" ∧
    (getFolderById c5Store 1 =
      some { id := 1, userId := "u", name := "A", parentId := none,
             path := "A" } ∧
     (createFolderRoute c5Store "u" "B" (some 1)).2.path = "A" ++ "/" ++ "B") :=
  ⟨(C5_create_folder_path c5Store "u" "C" none).1,
   by decide,
   (C5_create_folder_path c5Store "u" "B" (some 1)).2.1 1
     { id := 1, userId := "u", name := "A", parentId := none, path := "A" }
     rfl (by decide) (by decide)⟩

/-- Row created for folder `A` in the C6 scenario. -/
def c6RowA : FolderRec :=
  { id := 1, userId := "u", name := "A", parentId := none, path := "A" }

/-- Row created for child folder `B` in the C6 scenario. -/
def c6RowB : FolderRec :=
  { id := 2, userId := "u", name := "B", parentId := some 1, path := "A/B" }

/-- Folder `A`'s row after the rename to `A2`. -/
def c6RowA2 : FolderRec :=
  { id := 1, userId := "u", name := "A2", parentId := none, path := "A2" }

/-- Store after creating `A` at root. -/
def c6AfterA : Store := { folders := [c6RowA], files := [], nextFolderId := 2 }

/-- Store after also creating `B` under `A`. -/
def c6AfterB : Store :=
  { folders := [c6RowA, c6RowB], files := [], nextFolderId := 3 }

/-- **C6**: creating `A` at root then `B` under it yields child path
`"A/B"`; renaming `A` to `A2` (a PUT without `parentId`) rewrites only
`A`'s row — its name and path — and the child row, path `"A/B"`
included, is bit-for-bit unchanged. -/
theorem C6_rename_does_not_cascade :
    ((createFolderRoute (Store.mk [] [] 1) "u" "A" none).1 = c6AfterA ∧
      c6AfterA.folders = [c6RowA]) ∧
    ((createFolderRoute c6AfterA "u" "B" (some 1)).1 = c6AfterB ∧
      c6AfterB.folders = [c6RowA, c6RowB] ∧ c6RowB.path = "A/B") ∧
    ((updateFolderRoute c6AfterB 1 "A2" none).1.folders =
        [c6RowA2, c6RowB] ∧
      c6RowA2 = { c6RowA with name := "A2", path := "A2" } ∧
      c6RowB.path = "A/B") := by
  refine ⟨⟨by decide, by decide⟩, ⟨by decide, by decide, by decide⟩,
    by decide, by decide, by decide⟩

/-- Store for the C7 counterexample: folder 1 belongs to `u1` and has a
subfolder (folder 2) that belongs to a different user `u2`. -/
def c7Store : Store :=
  { folders :=
      [{ id := 1, userId := "u1", name := "Top", parentId := none,
         path := "Top" },
       { id := 2, userId := "u2", name := "Sub", parentId := some 1,
         path := "Top/Sub" }],
    files := [], nextFolderId := 3 }

/-- **C7 (counterexample)**: folder 1 of `c7Store` has a subfolder
referencing it, yet `u1`'s delete request answers 200 and removes the
folder row — the handler only inspects the *requester's* folders when
looking for subfolders, so another user's subfolder does not block
deletion (and is left orphaned). -/
theorem C7_delete_blocked_counterexample :
    ((c7Store.folders.filter (fun f => f.parentId == some 1)).length > 0) ∧
    deleteFolderRoute c7Store "u1" 1 =
      ({ folders := [{ id := 2, userId := "u2", name := "Sub",
                       parentId := some 1, path := "Top/Sub" }],
         files := [], nextFolderId := 3 }, 200) := by
  refine ⟨by decide, by decide⟩

/-- **C7 (amended)**: the delete-folder handler answers 400 and leaves
the store entirely unchanged whenever the folder still has at least one
file, or at least one subfolder *among the requesting user's own
folders*; a subfolder owned by another user does not block deletion. -/
theorem C7_delete_blocked_amended (s : Store) (uid : String)
    (folderId : Int)
    (h : (getFilesByFolderId s folderId).length > 0 ∨
      ((getFoldersByUserId s uid).filter
        (fun f => f.parentId == some folderId)).length > 0) :
    deleteFolderRoute s uid folderId = (s, 400) := by
  unfold deleteFolderRoute
  exact if_pos h

/-- Store for the C7 witness: folder 1 contains one file. -/
def c7FileStore : Store :=
  { folders := [{ id := 1, userId := "u", name := "Docs",
                  parentId := none, path := "Docs" }],
    files := [{ id := 1, userId := "u", folderId := some 1, name := "f",
                originalName := "f.pdf", size := 1,
                mimeType := "application/pdf", filePath := "/uploads/f",
                processingStatus := "completed" }],
    nextFolderId := 2 }

/-- Witness for the amended C7: deleting a folder that contains a file
is refused with 400 and no state change. -/
theorem C7_delete_blocked_amended_witness :
    ((getFilesByFolderId c7FileStore 1).length > 0 ∨
      ((getFoldersByUserId c7FileStore "u").filter
        (fun f => f.parentId == some 1)).length > 0) ∧
    deleteFolderRoute c7FileStore "u" 1 = (c7FileStore, 400) :=
  ⟨Or.inl (by decide),
   C7_delete_blocked_amended c7FileStore "u" 1 (Or.inl (by decide))⟩

/-- **C10**: a PUT /api/folders/:id carrying a new name but no (or a
falsy) `parentId` sets the folder's `parentId` to null and its path to
just the new name — the row is re-rooted and its ancestor path prefix
discarded, whatever its previous parent and path were. -/
theorem C10_update_without_parent_reroots (s : Store) (folderId : Int)
    (name : String) (p : Option Int) (hp : p = none ∨ p = some 0) :
    ∀ f ∈ (updateFolderRoute s folderId name p).1.folders,
      f.id = folderId →
        f.name = name ∧ f.parentId = none ∧ f.path = name := by
  have ht : idTruthy p = false := by
    rcases hp with h | h <;> subst h <;> rfl
  intro f hf hid
  simp only [updateFolderRoute, List.mem_map] at hf
  obtain ⟨g, _, rfl⟩ := hf
  by_cases hg : g.id = folderId
  · simp [hg, buildFolderPath, ht]
  · simp [hg] at hid

/-- Store for the C10 witness: `B` is nested under `A` with path
`"A/B"`. -/
def c10Store : Store :=
  { folders := [c6RowA, c6RowB], files := [], nextFolderId := 3 }

/-- Witness for C10: renaming the nested folder `B` (path `"A/B"`) to
`B2` without re-sending `parentId` leaves it at the root with path
`"B2"`. -/
theorem C10_update_without_parent_reroots_witness :
    ({ id := 2, userId := "u", name := "B2", parentId := none,
       path := "B2" } : FolderRec) ∈
      (updateFolderRoute c10Store 2 "B2" none).1.folders ∧
    (({ id := 2, userId := "u", name := "B2", parentId := none,
        path := "B2" } : FolderRec).name = "B2" ∧
     ({ id := 2, userId := "u", name := "B2", parentId := none,
        path := "B2" } : FolderRec).parentId = none ∧
     ({ id := 2, userId := "u", name := "B2", parentId := none,
        path := "B2" } : FolderRec).path = "B2") :=
  ⟨by decide,
   C10_update_without_parent_reroots c10Store 2 "B2" none (Or.inl rfl)
     { id := 2, userId := "u", name := "B2", parentId := none,
       path := "B2" }
     (by decide) (by decide)⟩

/-- The multer file part used for the C4 failing input. -/
def c4Part : UploadPart :=
  { filename := "dsk123", originalname := "notes.txt", size := 5,
    mimetype := "text/plain", path := "/uploads/dsk123" }

/-- The file record the upload handler creates for `c4Part`. -/
def c4Created : FileRec :=
  { id := 7, userId := "user-1", folderId := none, name := "dsk123",
    originalName := "notes.txt", size := 5, mimeType := "text/plain",
    filePath := "/uploads/dsk123", processingStatus := "processing" }

/-- **C4**: evaluation of the upload handler at the failing input — all
three option fields omitted. The response is 200 with the created
record in initial status `"processing"` (as the claim says), but the
pipeline is invoked with **all three options disabled**: the omitted
field destructures to the boolean `true`, and `true === 'true'` is
false under JavaScript strict equality, so the documented default of
`true` never takes effect. -/
theorem C4_omitted_options_disable_processing :
    uploadRoute "user-1" 7 [c4Part] none none none none =
      (200, [c4Created],
        [(c4Created,
          { processOcr := false, generateSummary := false,
            autoTag := false })]) ∧
    jsStrictEq (bodyField none) (JSVal.jsStr "true") = false ∧
    jsStrictEq (bodyField (some "true")) (JSVal.jsStr "true") = true := by
  refine ⟨by decide, rfl, by decide⟩

/-- **C8**: an AI command record is created with status `"processing"`;
`processCommand` then (with the persistence writes succeeding) performs
exactly one update — to `"completed"` carrying the parsed result when
the language-model call and parse succeed, or to `"failed"` carrying
the error payload `"Failed to process command"` when they fail — and
resolves normally; there is no second update and no retry. -/
theorem C8_command_single_terminal_update {α : Type}
    (uid cmd : String) (newId : Nat) (api : Except Unit α) :
    (aiCommandRoute uid cmd newId).status = "processing" ∧
    (processCommand api true true).1 =
      [match api with
       | .ok r => { status := "completed", result := CmdResult.parsed r }
       | .error _ =>
         { status := "failed",
           result := CmdResult.errorPayload "Failed to process command" }] ∧
    (processCommand api true true).1.length = 1 ∧
    (processCommand api true true).2 = true := by
  refine ⟨rfl, ?_, ?_, ?_⟩ <;> cases api <;> rfl

end AIFileManager
